import Mathlib

/-!
Shallow embedding of `src/cardboard/flask_integration.py` (class
`FlaskIntegration`): five Flask route decorators (`autologin`, `login_code`,
`login_autoexchange`, `logged_in`, `autologout`) orchestrating an OAuth2-style
authorization-code flow around an external identity-service client.

External collaborators (the `Cardboard` client's `check_token`,
`refresh_token`, `revoke_token`, the HTTP POST of `asyncpost`, the wall clock
`round(time.time())`, and the wrapped route handler itself) are modelled as
oracles collected in an `Env`.  A decorator run is a pure function from a
configuration, an environment, a request and the incoming session to an
`Outcome`: the final session, the HTTP response (redirect or handler result),
and the trace of outbound POSTs, refresh-token exchanges, revoke calls and
handler invocations made along the way.

Python truthiness of session values (`if thetoken`, `if session.get(...)`)
is modelled explicitly: `None` and the empty string (resp. `0`) are falsy.
-/

namespace Cardboard

/-- Shape of the token data dict `{access_token, refresh_token, expires_in,
token_type}` that the external client's exchange endpoint returns as JSON and
that `_constructAuthToken` synthesizes locally. -/
structure TokenData where
  access_token : String
  refresh_token : String
  expires_in : Int
  token_type : String
deriving DecidableEq, Repr

/-- Modelled from the spec: the external client's `AuthToken` value object
(`cardboard` library, not under `src/`): an access/refresh token pair plus
relative expiry seconds and token type, constructed from a data dict shaped
like `TokenData`.  Field `token` is the access token string, matching the
attribute accesses `token.token`, `token.expires_in`, `token.refresh_token`
in `flask_integration.py`. -/
structure AuthToken where
  token : String
  refresh_token : String
  expires_in : Int
  token_type : String
deriving DecidableEq, Repr

/-- Modelled from the spec: `cb.AuthToken(data)` builds the value object
directly from the data dict fields. -/
def AuthToken.ofData (d : TokenData) : AuthToken :=
  ⟨d.access_token, d.refresh_token, d.expires_in, d.token_type⟩

/-- The four namespaced session keys `{prefix}token`, `{prefix}refresh`,
`{prefix}expiry`, `{prefix}rd` of the per-user Flask session, as one record
(the four key names are pairwise distinct for every prefix).  `none` models
an absent key. -/
structure Session where
  token : Option String
  refresh : Option String
  expiry : Option Int
  rd : Option String
deriving DecidableEq, Repr

/-- The parts of the incoming Flask request the decorators read:
`request.args.get('code')` and `request.url`. -/
structure Request where
  code : Option String
  url : String
deriving DecidableEq, Repr

/-- Per-instance configuration of `FlaskIntegration`: `client_id`, `secret`,
the client's `_baseurl`, and `app_login_redirect` (custom login URL or the
Cardboard app URL). -/
structure Config where
  client_id : String
  secret : String
  baseurl : String
  app_login_redirect : String
deriving DecidableEq, Repr

/-- First positional argument handed to a wrapped route handler: a raw token
string, an `AuthToken` object, Python `None`, or no token argument at all
(`autologout` calls `route_function(*args, **kwargs)`). -/
inductive TokenArg where
  | str : String → TokenArg
  | tok : AuthToken → TokenArg
  | pyNone : TokenArg
  | absent : TokenArg
deriving DecidableEq, Repr

/-- What a decorator returns to Flask: `redirect(url)` or the wrapped
handler's own return value. -/
inductive HttpReply (ρ : Type) where
  | redirect : String → HttpReply ρ
  | result : ρ → HttpReply ρ
deriving DecidableEq, Repr

/-- One outbound POST made by `asyncpost`: target URL, form data and
headers. -/
structure PostCall where
  url : String
  data : List (String × String)
  headers : List (String × String)
deriving DecidableEq, Repr

/-- Oracles for everything outside `flask_integration.py`:
`check_token` and `revoke_token` on the sync client, `refresh_token` on the
async client (`none` models the coroutine raising), `post` for `asyncpost`
(`Except.error status` models a non-200 reply, `Except.ok` the parsed JSON),
`now` for `round(time.time())`, and the wrapped route handler, which may read
and mutate the session and produces a value of type `ρ` (`handler0` is the
handler of an `autologout` route, which receives no token argument). -/
structure Env (ρ : Type) where
  check_token : String → Bool
  refresh_token : String → Option AuthToken
  post : PostCall → Except Int TokenData
  now : Int
  handler : TokenArg → Session → Session × ρ
  handler0 : Session → Session × ρ
  revoke_token : String → Option Unit

/-- Result of one decorated request: final session, HTTP reply, and the
traces of outbound POSTs, refresh-token exchange calls, revoke calls, and
handler invocations (each recorded with the argument passed and the session
state at the moment of the call). -/
structure Outcome (ρ : Type) where
  session : Session
  reply : HttpReply ρ
  posts : List PostCall
  refreshCalls : List String
  revokeCalls : List String
  handlerCalls : List (TokenArg × Session)
deriving DecidableEq, Repr

/-- Python truthiness of an optional string session value: `None` and `""`
are falsy. -/
def truthy : Option String → Bool
  | Option.none => false
  | Option.some s => s != ""

/-- Python truthiness of an optional integer session value: `None` and `0`
are falsy. -/
def truthyI : Option Int → Bool
  | Option.none => false
  | Option.some n => n != 0

@[simp] theorem truthy_none : truthy Option.none = false := rfl

@[simp] theorem truthy_some (s : String) : truthy (some s) = (s != "") := rfl

@[simp] theorem truthyI_none : truthyI Option.none = false := rfl

@[simp] theorem truthyI_some (n : Int) : truthyI (some n) = (n != 0) := rfl

/-- `_constructAuthToken(token, expiry, refresh)`: builds the data dict
`{access_token: token, refresh_token: refresh,
expires_in: expiry - round(time.time()), token_type: "Bearer"}` and wraps it
in an `AuthToken`. -/
def _constructAuthToken (now : Int) (token : String) (expiry : Int)
    (refresh : String) : AuthToken :=
  AuthToken.ofData ⟨token, refresh, expiry - now, "Bearer"⟩

/-- The token-exchange POST issued for authorization code `c`:
`asyncpost(f"{baseurl}/token", data={code, client_id, client_secret,
grant_type: "authorization_code"}, headers={Content-Type:
application/x-www-form-urlencoded})`, shared verbatim by `autologin` and
`login_autoexchange`. -/
def exchangeCall (cfg : Config) (c : String) : PostCall :=
  ⟨cfg.baseurl ++ "/token",
   [("code", c), ("client_id", cfg.client_id), ("client_secret", cfg.secret),
    ("grant_type", "authorization_code")],
   [("Content-Type", "application/x-www-form-urlencoded")]⟩

/-- The three session writes after a successful code exchange:
`session[token_key] = token.token`,
`session[expiry_key] = round(time.time()) + token.expires_in`,
`session[refresh_key] = token.refresh_token`. -/
def persistSession (now : Int) (tk : AuthToken) (s : Session) : Session :=
  { s with token := some tk.token,
           expiry := some (now + tk.expires_in),
           refresh := some tk.refresh_token }

/-- Tail of both `autologin` paths that reach the handler:
`result = route_function(token, ...)`; then
`if session.get(self.session_rd): return redirect(session.pop(self.session_rd))`
else `return result`. -/
def handleThenRd (env : Env ρ) (arg : TokenArg) (s : Session)
    (posts : List PostCall) (refreshes : List String) : Outcome ρ :=
  let r := env.handler arg s
  { session := if truthy r.1.rd then { r.1 with rd := Option.none } else r.1,
    reply := if truthy r.1.rd then .redirect (r.1.rd.getD "") else .result r.2,
    posts := posts, refreshCalls := refreshes, revokeCalls := [],
    handlerCalls := [(arg, s)] }

/-- Tail of the decorators that return the handler's result unmodified:
`return route_function(token, ...)`. -/
def handlePlain (env : Env ρ) (arg : TokenArg) (s : Session)
    (posts : List PostCall) (refreshes : List String) : Outcome ρ :=
  let r := env.handler arg s
  ⟨r.1, .result r.2, posts, refreshes, [], [(arg, s)]⟩

/-- The `autologin` decorator body (`flask_integration.py` lines 77-119). -/
def autologin (cfg : Config) (env : Env ρ) (req : Request) (s : Session) :
    Outcome ρ :=
  let code := req.code
  let thetoken := s.token
  if truthy thetoken && env.check_token (thetoken.getD "") then
    if truthyI s.expiry && truthy s.refresh then
      handleThenRd env
        (.tok (_constructAuthToken env.now (thetoken.getD "")
          (s.expiry.getD 0) (s.refresh.getD ""))) s [] []
    else if truthy s.refresh then
      match env.refresh_token (s.refresh.getD "") with
      | Option.none =>
          ⟨s, .redirect cfg.app_login_redirect, [], [s.refresh.getD ""], [], []⟩
      | Option.some tk => handleThenRd env (.tok tk) s [] [s.refresh.getD ""]
    else
      handleThenRd env (.str (thetoken.getD "")) s [] []
  else if truthy code then
    let call := exchangeCall cfg (code.getD "")
    match env.post call with
    | Except.error _ =>
        ⟨s, .redirect cfg.app_login_redirect, [call], [], [], []⟩
    | Except.ok d =>
        let token := AuthToken.ofData d
        handleThenRd env (.tok token) (persistSession env.now token s) [call] []
  else
    ⟨s, .redirect cfg.app_login_redirect, [], [], [], []⟩

/-- The deprecated `login_code` decorator body (lines 142-151). -/
def login_code (cfg : Config) (env : Env ρ) (req : Request) (s : Session) :
    Outcome ρ :=
  let thetoken := s.token
  if truthy thetoken && env.check_token (thetoken.getD "") then
    handlePlain env .pyNone s [] []
  else if truthy req.code then
    handlePlain env (.str (req.code.getD "")) s [] []
  else
    ⟨s, .redirect cfg.app_login_redirect, [], [], [], []⟩

/-- The deprecated `login_autoexchange` decorator body (lines 172-196). -/
def login_autoexchange (cfg : Config) (env : Env ρ) (req : Request)
    (s : Session) : Outcome ρ :=
  let code := req.code
  let thetoken := s.token
  if truthy thetoken && env.check_token (thetoken.getD "") then
    handlePlain env (.str (thetoken.getD "")) s [] []
  else if truthy code then
    let call := exchangeCall cfg (code.getD "")
    match env.post call with
    | Except.error _ => handlePlain env .pyNone s [call] []
    | Except.ok d => handlePlain env (.tok (AuthToken.ofData d)) s [call] []
  else
    handlePlain env .pyNone s [] []

/-- The `logged_in` decorator body (lines 214-232). -/
def logged_in (cfg : Config) (env : Env ρ) (req : Request) (s : Session) :
    Outcome ρ :=
  let thetoken := s.token
  if truthy thetoken && env.check_token (thetoken.getD "") then
    if truthyI s.expiry && truthy s.refresh then
      handlePlain env
        (.tok (_constructAuthToken env.now (thetoken.getD "")
          (s.expiry.getD 0) (s.refresh.getD ""))) s [] []
    else if truthy s.refresh then
      match env.refresh_token (s.refresh.getD "") with
      | Option.none =>
          ⟨{ s with rd := some req.url }, .redirect cfg.app_login_redirect,
           [], [s.refresh.getD ""], [], []⟩
      | Option.some tk => handlePlain env (.tok tk) s [] [s.refresh.getD ""]
    else
      handlePlain env (.str (thetoken.getD "")) s [] []
  else
    ⟨{ s with rd := some req.url }, .redirect cfg.app_login_redirect,
     [], [], [], []⟩

/-- The `autologout` decorator body (lines 246-257): pop all four session
keys, best-effort revoke the old token in a `try`/`except: pass`, then call
the handler without a token argument. -/
def autologout (env : Env ρ) (s : Session) : Outcome ρ :=
  let ot := s.token
  let cleared : Session := ⟨Option.none, Option.none, Option.none, Option.none⟩
  let revokes :=
    if truthy ot then
      match env.revoke_token (ot.getD "") with
      | Option.some _ => [ot.getD ""]
      | Option.none => [ot.getD ""]
    else []
  let r := env.handler0 cleared
  ⟨r.1, .result r.2, [], [], revokes, [(.absent, cleared)]⟩

/-! Concrete configuration and environment used to evaluate the decorators
on closed inputs. -/

/-- A concrete configuration. -/
def egCfg : Config := ⟨"cid", "sec", "https://cb", "https://login"⟩

/-- A concrete environment: only the token "valid" passes `check_token`,
only the refresh token "goodr" refreshes successfully, every POST answers
200 with token data `{access_token: "T", refresh_token: "R",
expires_in: 3600}`, and the handler returns the session unchanged with
result "handled". -/
def egEnv : Env String where
  check_token := fun t => t == "valid"
  refresh_token := fun r =>
    if r == "goodr" then some ⟨"N", "NR", 600, "Bearer"⟩ else Option.none
  post := fun _ => Except.ok ⟨"T", "R", 3600, "bearer"⟩
  now := 1000
  handler := fun _ s => (s, "handled")
  handler0 := fun s => (s, "out")
  revoke_token := fun _ => some ()

/-- The empty session: no key set. -/
def egEmpty : Session := ⟨Option.none, Option.none, Option.none, Option.none⟩

/-! Claim theorems. -/

/-- Claim C7: for every `autologin` request whose session holds a stored
token that passes the validity check and has neither a refresh-token field
nor an expiry field, the wrapped handler is invoked with that stored token
string unchanged as its first argument, on the unchanged session. -/
theorem autologin_valid_token_passthrough (cfg : Config) (env : Env ρ)
    (req : Request) (s : Session) (t : String) (h1 : s.token = some t)
    (h2 : t ≠ "") (h3 : env.check_token t = true)
    (h4 : s.refresh = Option.none) (h5 : s.expiry = Option.none) :
    (autologin cfg env req s).handlerCalls = [(.str t, s)] := by
  simp [autologin, handleThenRd, truthy, truthyI, h1, h2, h3, h4, h5]

/-- Claim C7 witness: a concrete request with session token "valid" and no
refresh or expiry key reaches the handler with the string "valid". -/
theorem autologin_valid_token_passthrough_witness :
    (autologin egCfg egEnv ⟨Option.none, "https://app/p"⟩
        ⟨some "valid", Option.none, Option.none, Option.none⟩).handlerCalls =
      [(.str "valid", ⟨some "valid", Option.none, Option.none, Option.none⟩)] :=
  autologin_valid_token_passthrough egCfg egEnv ⟨Option.none, "https://app/p"⟩
    ⟨some "valid", Option.none, Option.none, Option.none⟩ "valid"
    rfl (by decide) (by decide) rfl rfl

/-- Claim C8: persisting a token (session token key := the token's access
token, expiry key := now + expires_in, refresh key := the refresh token) and
then reconstructing via `_constructAuthToken` at the same clock value yields
the same access-token string, the same refresh-token string, and the same
absolute expiry (now + expires_in of the reconstruction equals the stored
absolute expiry). -/
theorem constructAuthToken_persist_roundtrip (now : Int) (tk : AuthToken)
    (s : Session) :
    ((_constructAuthToken now ((persistSession now tk s).token.getD "")
        ((persistSession now tk s).expiry.getD 0)
        ((persistSession now tk s).refresh.getD "")).token = tk.token) ∧
    ((_constructAuthToken now ((persistSession now tk s).token.getD "")
        ((persistSession now tk s).expiry.getD 0)
        ((persistSession now tk s).refresh.getD "")).refresh_token =
      tk.refresh_token) ∧
    (now + (_constructAuthToken now ((persistSession now tk s).token.getD "")
        ((persistSession now tk s).expiry.getD 0)
        ((persistSession now tk s).refresh.getD "")).expires_in =
      (persistSession now tk s).expiry.getD 0) := by
  simp [_constructAuthToken, persistSession, AuthToken.ofData]

/-- Claim C5: `autologout` invokes the handler exactly once, with no token
argument, on the session with all four keys cleared; its reply is the
handler's result; and the whole outcome is independent of what the revoke
oracle does (success or raise), for any incoming session, token present or
not. -/
theorem autologout_clears_and_ignores_revoke (env : Env ρ) (s : Session)
    (f g : String → Option Unit) :
    (autologout env s).handlerCalls = [(.absent, egEmpty)] ∧
    (autologout env s).session = (env.handler0 egEmpty).1 ∧
    (autologout env s).reply = .result (env.handler0 egEmpty).2 ∧
    autologout { env with revoke_token := f } s =
      autologout { env with revoke_token := g } s := by
  refine ⟨rfl, rfl, rfl, ?_⟩
  unfold autologout
  cases ht : truthy s.token
  · simp [ht]
  · cases hf : f (s.token.getD "") <;> cases hg : g (s.token.getD "") <;>
      simp [ht, hf, hg]

/-- Claim C1 (amended): in both `autologin` and `logged_in`, the
refresh-token exchange happens exactly when the stored token passes the
validity check and the session holds a truthy refresh token but no truthy
expiry; on success the new token is passed to the wrapped handler, and the
session's token/refresh/expiry fields are not updated: the handler is
invoked on the unchanged incoming session. -/
theorem refresh_exchange_without_persist (cfg : Config) (env : Env ρ)
    (req : Request) (s : Session) (t r : String) (tk : AuthToken)
    (h1 : s.token = some t) (h2 : t ≠ "") (h3 : env.check_token t = true)
    (h4 : truthyI s.expiry = false) (h5 : s.refresh = some r) (h6 : r ≠ "")
    (h7 : env.refresh_token r = some tk) :
    (autologin cfg env req s).refreshCalls = [r] ∧
    (autologin cfg env req s).handlerCalls = [(.tok tk, s)] ∧
    (logged_in cfg env req s).refreshCalls = [r] ∧
    (logged_in cfg env req s).handlerCalls = [(.tok tk, s)] := by
  simp [autologin, logged_in, handleThenRd, handlePlain, truthy,
    h1, h2, h3, h4, h5, h6, h7]

/-- Claim C1 witness: session token "valid", refresh token "goodr", no
expiry key; the environment refreshes "goodr" to a concrete new token, and
both decorators invoke the handler with it on the unchanged session. -/
theorem refresh_exchange_without_persist_witness :
    (autologin egCfg egEnv ⟨Option.none, "https://app/p"⟩
        ⟨some "valid", some "goodr", Option.none, Option.none⟩).refreshCalls =
      ["goodr"] ∧
    (autologin egCfg egEnv ⟨Option.none, "https://app/p"⟩
        ⟨some "valid", some "goodr", Option.none, Option.none⟩).handlerCalls =
      [(.tok ⟨"N", "NR", 600, "Bearer"⟩,
        ⟨some "valid", some "goodr", Option.none, Option.none⟩)] ∧
    (logged_in egCfg egEnv ⟨Option.none, "https://app/p"⟩
        ⟨some "valid", some "goodr", Option.none, Option.none⟩).refreshCalls =
      ["goodr"] ∧
    (logged_in egCfg egEnv ⟨Option.none, "https://app/p"⟩
        ⟨some "valid", some "goodr", Option.none, Option.none⟩).handlerCalls =
      [(.tok ⟨"N", "NR", 600, "Bearer"⟩,
        ⟨some "valid", some "goodr", Option.none, Option.none⟩)] :=
  refresh_exchange_without_persist egCfg egEnv ⟨Option.none, "https://app/p"⟩
    ⟨some "valid", some "goodr", Option.none, Option.none⟩ "valid" "goodr"
    ⟨"N", "NR", 600, "Bearer"⟩ rfl (by decide) (by decide) rfl rfl (by decide)
    (by decide)

/-- Claim C1 counterexample: the session holds an expired access token
(expiry 500 lies before now = 1000 and `check_token` rejects it) together
with the valid refresh token "goodr", yet `autologin` performs no
refresh-token exchange, never invokes the handler, leaves the session
unchanged and redirects to the login URL; `logged_in` likewise performs no
refresh-token exchange and never invokes the handler. -/
theorem refresh_claim_counterexample :
    (autologin egCfg egEnv ⟨Option.none, "https://app/p"⟩
        ⟨some "expired", some "goodr", some 500, Option.none⟩).refreshCalls = [] ∧
    (autologin egCfg egEnv ⟨Option.none, "https://app/p"⟩
        ⟨some "expired", some "goodr", some 500, Option.none⟩).handlerCalls = [] ∧
    (autologin egCfg egEnv ⟨Option.none, "https://app/p"⟩
        ⟨some "expired", some "goodr", some 500, Option.none⟩).session =
      ⟨some "expired", some "goodr", some 500, Option.none⟩ ∧
    (autologin egCfg egEnv ⟨Option.none, "https://app/p"⟩
        ⟨some "expired", some "goodr", some 500, Option.none⟩).reply =
      .redirect "https://login" ∧
    (logged_in egCfg egEnv ⟨Option.none, "https://app/p"⟩
        ⟨some "expired", some "goodr", some 500, Option.none⟩).refreshCalls = [] ∧
    (logged_in egCfg egEnv ⟨Option.none, "https://app/p"⟩
        ⟨some "expired", some "goodr", some 500, Option.none⟩).handlerCalls = [] := by
  decide

/-- Claim C2 (amended, for `autologin` and `logged_in`): with no valid
stored token and no authorization code in the query string, the reply is a
redirect to the configured login URL and the wrapped handler is never
invoked. -/
theorem no_token_no_code_redirects (cfg : Config) (env : Env ρ)
    (req : Request) (s : Session)
    (hvalid : (truthy s.token && env.check_token (s.token.getD "")) = false)
    (hcode : truthy req.code = false) :
    (autologin cfg env req s).reply = .redirect cfg.app_login_redirect ∧
    (autologin cfg env req s).handlerCalls = [] ∧
    (logged_in cfg env req s).reply = .redirect cfg.app_login_redirect ∧
    (logged_in cfg env req s).handlerCalls = [] := by
  simp [autologin, logged_in, hvalid, hcode]

/-- Claim C2 witness: the empty session with no code redirects to the login
URL under both decorators, with no handler call. -/
theorem no_token_no_code_redirects_witness :
    (autologin egCfg egEnv ⟨Option.none, "https://app/p"⟩ egEmpty).reply =
      .redirect egCfg.app_login_redirect ∧
    (autologin egCfg egEnv ⟨Option.none, "https://app/p"⟩ egEmpty).handlerCalls = [] ∧
    (logged_in egCfg egEnv ⟨Option.none, "https://app/p"⟩ egEmpty).reply =
      .redirect egCfg.app_login_redirect ∧
    (logged_in egCfg egEnv ⟨Option.none, "https://app/p"⟩ egEmpty).handlerCalls = [] :=
  no_token_no_code_redirects egCfg egEnv ⟨Option.none, "https://app/p"⟩ egEmpty
    (by decide) (by decide)

/-- Claim C2 counterexample: `login_autoexchange`, also cited by the claim,
does not redirect on the empty session with no code: it invokes the wrapped
handler with Python None and returns the handler's result. -/
theorem no_token_no_code_counterexample :
    (login_autoexchange egCfg egEnv ⟨Option.none, "https://app/p"⟩
        egEmpty).handlerCalls = [(.pyNone, egEmpty)] ∧
    (login_autoexchange egCfg egEnv ⟨Option.none, "https://app/p"⟩
        egEmpty).reply = .result "handled" := by
  decide

/-- Claim C3: for every `autologin` request with no stored token and an
authorization code `c`, the trace holds exactly one outbound POST, namely
the token-exchange call to `{baseurl}/token` with the form body
`{code, client_id, client_secret, grant_type: authorization_code}`; and
whenever that call answers 200 with data `d`, the handler is invoked exactly
once, with the token built from `d`, on the session whose token key holds
`d.access_token`, whose expiry key holds `now + d.expires_in`, and whose
refresh key holds `d.refresh_token`. -/
theorem autologin_code_exchange_persists (cfg : Config) (env : Env ρ)
    (req : Request) (s : Session) (c : String) (h1 : s.token = Option.none)
    (h2 : req.code = some c) (h3 : c ≠ "") :
    (autologin cfg env req s).posts = [exchangeCall cfg c] ∧
    ∀ d, env.post (exchangeCall cfg c) = Except.ok d →
      (autologin cfg env req s).handlerCalls =
        [(.tok (AuthToken.ofData d),
          { s with token := some d.access_token,
                   expiry := some (env.now + d.expires_in),
                   refresh := some d.refresh_token })] := by
  constructor
  · cases hp : env.post (exchangeCall cfg c) with
    | error n => simp [autologin, truthy, h1, h2, h3, hp]
    | ok d => simp [autologin, handleThenRd, truthy, h1, h2, h3, hp]
  · intro d hd
    simp [autologin, handleThenRd, persistSession, AuthToken.ofData, truthy,
      h1, h2, h3, hd]

/-- Claim C3 witness: on the empty session with code "abc123" and a mocked
200 response `{access_token: "T", refresh_token: "R", expires_in: 3600}` at
now = 1000, exactly the expected POST is made and the handler runs on the
session holding token "T", expiry 4600 and refresh "R". -/
theorem autologin_code_exchange_persists_witness :
    (autologin egCfg egEnv ⟨some "abc123", "https://app/p"⟩ egEmpty).posts =
      [exchangeCall egCfg "abc123"] ∧
    (autologin egCfg egEnv ⟨some "abc123", "https://app/p"⟩
        egEmpty).handlerCalls =
      [(.tok (AuthToken.ofData ⟨"T", "R", 3600, "bearer"⟩),
        { egEmpty with token := some "T", expiry := some 4600,
                       refresh := some "R" })] := by
  have h := autologin_code_exchange_persists egCfg egEnv
    ⟨some "abc123", "https://app/p"⟩ egEmpty "abc123" rfl rfl (by decide)
  exact ⟨h.1, h.2 ⟨"T", "R", 3600, "bearer"⟩ rfl⟩

/-- Every `autologin` run either never reaches the wrapped handler or is a
`handleThenRd` tail on some argument and session. -/
theorem autologin_shape (cfg : Config) (env : Env ρ) (req : Request)
    (s : Session) :
    (autologin cfg env req s).handlerCalls = [] ∨
    ∃ a sh posts refreshes,
      autologin cfg env req s = handleThenRd env a sh posts refreshes := by
  simp only [autologin]
  repeat' split
  all_goals first
    | exact Or.inl rfl
    | exact Or.inr ⟨_, _, _, _, rfl⟩

/-- If the handler's output session holds a truthy pending redirect, the
`handleThenRd` tail redirects there and pops the key. -/
theorem handleThenRd_pops_rd (env : Env ρ) (a : TokenArg) (sh : Session)
    (posts : List PostCall) (refreshes : List String) (u : String)
    (hrd : (env.handler a sh).1.rd = some u) (hu : u ≠ "") :
    (handleThenRd env a sh posts refreshes).reply = .redirect u ∧
    (handleThenRd env a sh posts refreshes).session.rd = Option.none := by
  simp [handleThenRd, truthy, hrd, hu]

/-- Claim C4: for every `autologin` request in which the wrapped handler is
invoked (with argument `a` on session `sh`) and the session as of the end of
the handler call holds a pending-redirect URL `u` under the rd key, the
final reply is a redirect to `u` instead of the handler's result, and the rd
key is removed from the final session. -/
theorem autologin_pending_redirect (cfg : Config) (env : Env ρ)
    (req : Request) (s : Session) (a : TokenArg) (sh : Session) (u : String)
    (hc : (autologin cfg env req s).handlerCalls = [(a, sh)])
    (hrd : (env.handler a sh).1.rd = some u) (hu : u ≠ "") :
    (autologin cfg env req s).reply = .redirect u ∧
    (autologin cfg env req s).session.rd = Option.none := by
  rcases autologin_shape cfg env req s with h | ⟨a0, sh0, p0, f0, h⟩
  · rw [h] at hc
    exact absurd hc (by simp)
  · rw [h] at hc ⊢
    have hc2 : a0 = a ∧ sh0 = sh := by
      simpa [handleThenRd] using hc
    obtain ⟨rfl, rfl⟩ := hc2
    exact handleThenRd_pops_rd env a0 sh0 p0 f0 u hrd hu

/-- Claim C4 witness: with session token "valid" and pending redirect
"https://app/orig" (kept by the handler), the final reply is a redirect to
"https://app/orig" and the rd key is gone. -/
theorem autologin_pending_redirect_witness :
    (autologin egCfg egEnv ⟨Option.none, "https://app/p"⟩
        ⟨some "valid", Option.none, Option.none, some "https://app/orig"⟩).reply =
      .redirect "https://app/orig" ∧
    (autologin egCfg egEnv ⟨Option.none, "https://app/p"⟩
        ⟨some "valid", Option.none, Option.none,
         some "https://app/orig"⟩).session.rd = Option.none :=
  autologin_pending_redirect egCfg egEnv ⟨Option.none, "https://app/p"⟩
    ⟨some "valid", Option.none, Option.none, some "https://app/orig"⟩
    (.str "valid")
    ⟨some "valid", Option.none, Option.none, some "https://app/orig"⟩
    "https://app/orig" (by decide) rfl (by decide)

/-- Every `logged_in` run is either the record-the-URL-and-redirect failure
outcome or a plain handler tail on the unchanged incoming session. -/
theorem logged_in_shape (cfg : Config) (env : Env ρ) (req : Request)
    (s : Session) :
    (∃ fr, logged_in cfg env req s =
        ⟨{ s with rd := some req.url }, .redirect cfg.app_login_redirect,
         [], fr, [], []⟩) ∨
    (∃ a fr, logged_in cfg env req s = handlePlain env a s [] fr) := by
  simp only [logged_in]
  repeat' split
  all_goals first
    | exact Or.inl ⟨_, rfl⟩
    | exact Or.inr ⟨_, _, rfl⟩

/-- Claim C6: every `logged_in` request that never reaches the wrapped
handler stores the originally requested URL under the session's rd key and
replies with a redirect to the configured login URL. -/
theorem logged_in_failure_records_url (cfg : Config) (env : Env ρ)
    (req : Request) (s : Session)
    (h : (logged_in cfg env req s).handlerCalls = []) :
    (logged_in cfg env req s).reply = .redirect cfg.app_login_redirect ∧
    (logged_in cfg env req s).session = { s with rd := some req.url } := by
  rcases logged_in_shape cfg env req s with ⟨fr, hs⟩ | ⟨a0, fr, hs⟩
  · rw [hs]
    exact ⟨rfl, rfl⟩
  · rw [hs] at h
    exact absurd h (by simp [handlePlain])

/-- Claim C6 witness: a request for "https://app/dash" with an invalid
stored token redirects to the login URL and records "https://app/dash" under
the rd key. -/
theorem logged_in_failure_records_url_witness :
    (logged_in egCfg egEnv ⟨Option.none, "https://app/dash"⟩
        ⟨some "bad", Option.none, Option.none, Option.none⟩).reply =
      .redirect egCfg.app_login_redirect ∧
    (logged_in egCfg egEnv ⟨Option.none, "https://app/dash"⟩
        ⟨some "bad", Option.none, Option.none, Option.none⟩).session =
      { (⟨some "bad", Option.none, Option.none, Option.none⟩ : Session) with
          rd := some "https://app/dash" } :=
  logged_in_failure_records_url egCfg egEnv ⟨Option.none, "https://app/dash"⟩
    ⟨some "bad", Option.none, Option.none, Option.none⟩ (by decide)

/-- Claim C9: `logged_in` itself never writes the session's token, refresh
or expiry keys: when the handler is invoked it sees exactly the incoming
session (so a token obtained by the refresh exchange is not persisted) and
the final session is exactly the handler's output; when the handler is not
invoked, the final session agrees with the incoming one on the token,
refresh and expiry keys, rd being the only key written. -/
theorem logged_in_session_frame (cfg : Config) (env : Env ρ) (req : Request)
    (s : Session) :
    (∀ a sh, (logged_in cfg env req s).handlerCalls = [(a, sh)] →
        sh = s ∧ (logged_in cfg env req s).session = (env.handler a s).1 ∧
        (logged_in cfg env req s).reply = .result (env.handler a s).2) ∧
    ((logged_in cfg env req s).handlerCalls = [] →
        (logged_in cfg env req s).session.token = s.token ∧
        (logged_in cfg env req s).session.refresh = s.refresh ∧
        (logged_in cfg env req s).session.expiry = s.expiry) := by
  rcases logged_in_shape cfg env req s with ⟨fr, hs⟩ | ⟨a0, fr, hs⟩ <;>
    rw [hs] <;> constructor
  · intro a sh hc
    exact absurd hc (by simp)
  · intro _
    exact ⟨rfl, rfl, rfl⟩
  · intro a sh hc
    have hc2 : a0 = a ∧ s = sh := by
      simpa [handlePlain] using hc
    obtain ⟨rfl, rfl⟩ := hc2
    exact ⟨rfl, rfl, rfl⟩
  · intro hc
    exact absurd hc (by simp [handlePlain])

/-- Claim C9 witness: with session token "valid" and refresh "goodr" and no
expiry, `logged_in` hands the refreshed token to the handler on the
unchanged incoming session — the refreshed token is not written back. -/
theorem logged_in_session_frame_witness :
    (⟨some "valid", some "goodr", Option.none, Option.none⟩ : Session) =
      ⟨some "valid", some "goodr", Option.none, Option.none⟩ ∧
    (logged_in egCfg egEnv ⟨Option.none, "https://app/p"⟩
        ⟨some "valid", some "goodr", Option.none, Option.none⟩).session =
      (egEnv.handler (.tok ⟨"N", "NR", 600, "Bearer"⟩)
        ⟨some "valid", some "goodr", Option.none, Option.none⟩).1 ∧
    (logged_in egCfg egEnv ⟨Option.none, "https://app/p"⟩
        ⟨some "valid", some "goodr", Option.none, Option.none⟩).reply =
      .result (egEnv.handler (.tok ⟨"N", "NR", 600, "Bearer"⟩)
        ⟨some "valid", some "goodr", Option.none, Option.none⟩).2 :=
  (logged_in_session_frame egCfg egEnv ⟨Option.none, "https://app/p"⟩
      ⟨some "valid", some "goodr", Option.none, Option.none⟩).1
    (.tok ⟨"N", "NR", 600, "Bearer"⟩)
    ⟨some "valid", some "goodr", Option.none, Option.none⟩ (by decide)

/-- Claim C10: for every `login_autoexchange` request with no valid stored
token the reply is never a redirect; with no truthy code the handler is
invoked with Python None on the unchanged session; with a code whose
exchange fails (non-200) the handler is likewise invoked with Python None;
and with a code whose exchange answers 200 with data `d` the handler is
invoked with the token built from `d`, still with no session write. -/
theorem login_autoexchange_never_redirects (cfg : Config) (env : Env ρ)
    (req : Request) (s : Session)
    (h : (truthy s.token && env.check_token (s.token.getD "")) = false) :
    (∀ u, (login_autoexchange cfg env req s).reply ≠ .redirect u) ∧
    (truthy req.code = false →
        (login_autoexchange cfg env req s).handlerCalls = [(.pyNone, s)]) ∧
    (∀ c, req.code = some c → c ≠ "" →
        ∀ n, env.post (exchangeCall cfg c) = Except.error n →
          (login_autoexchange cfg env req s).handlerCalls = [(.pyNone, s)]) ∧
    (∀ c, req.code = some c → c ≠ "" →
        ∀ d, env.post (exchangeCall cfg c) = Except.ok d →
          (login_autoexchange cfg env req s).handlerCalls =
            [(.tok (AuthToken.ofData d), s)]) := by
  have hva : ¬(truthy s.token = true ∧
      env.check_token (s.token.getD "") = true) := by
    rw [← Bool.and_eq_true]
    simp [h]
  refine ⟨?_, ?_, ?_, ?_⟩
  · intro u
    cases hcode : truthy req.code
    · simp [login_autoexchange, handlePlain, hva, hcode]
    · cases hp : env.post (exchangeCall cfg (req.code.getD "")) <;>
        simp [login_autoexchange, handlePlain, hva, hcode, hp]
  · intro hcode
    simp [login_autoexchange, handlePlain, hva, hcode]
  · intro c hcode hc n hp
    simp [login_autoexchange, handlePlain, hva, hcode, hc, hp]
  · intro c hcode hc d hp
    simp [login_autoexchange, handlePlain, hva, hcode, hc, hp]

/-- Claim C10 witness: on the empty session, with no code the handler gets
Python None, and with code "abc123" and the mocked 200 response the handler
gets the token built from it; the no-code reply is the handler's result. -/
theorem login_autoexchange_never_redirects_witness :
    (login_autoexchange egCfg egEnv ⟨Option.none, "https://app/p"⟩
        egEmpty).reply ≠ .redirect "https://login" ∧
    (login_autoexchange egCfg egEnv ⟨Option.none, "https://app/p"⟩
        egEmpty).handlerCalls = [(.pyNone, egEmpty)] ∧
    (login_autoexchange egCfg egEnv ⟨some "abc123", "https://app/p"⟩
        egEmpty).handlerCalls =
      [(.tok (AuthToken.ofData ⟨"T", "R", 3600, "bearer"⟩), egEmpty)] :=
  ⟨(login_autoexchange_never_redirects egCfg egEnv
      ⟨Option.none, "https://app/p"⟩ egEmpty (by decide)).1 "https://login",
   (login_autoexchange_never_redirects egCfg egEnv
      ⟨Option.none, "https://app/p"⟩ egEmpty (by decide)).2.1 (by decide),
   (login_autoexchange_never_redirects egCfg egEnv
      ⟨some "abc123", "https://app/p"⟩ egEmpty (by decide)).2.2.2 "abc123"
     rfl (by decide) ⟨"T", "R", 3600, "bearer"⟩ rfl⟩

end Cardboard
